import Mathlib

/-!
Verification of the Newflasher serverless backend (Pi claimable-balance
submission bots).  The repository consists of several Netlify handler
variants; each namespace below embeds one variant:

* `FeeBump`      — netlify/functions/submitTransaction.js (version 7.0,
                   auto fee-bumping race; account loaded once, fire-and-forget)
* `Balances`     — unnamed/part_000 (getClaimableBalances handler)
* `Predictive`   — unnamed/part_001 (duration-bounded race, awaited submit)
* `ClockSync`    — unnamed/part_002 (clock-sync race with waiting gate)
* `Sponsorship`  — unnamed/part_003 first file (single-shot with optional
                   revoke-sponsorship operation)
* `Diagnostic`   — unnamed/part_005 (diagnostic handler, no method check)
* `ClaimOnly`    — unnamed/part_006 (claim-only single-shot)
* `FailFast`     — unnamed/part_007 first file (fail-fast TOO_EARLY gate race)
* `Persistent`   — unnamed/part_008 (attempt-count-bounded retry loop)

Machine numbers are modelled as `Nat`/`Int`; the integer values involved are
far below 2^53, where JavaScript number arithmetic on integers is exact.
-/

/-- JavaScript `Math.ceil(n / d)` for natural `n` and positive natural `d`
(the sources always divide by `totalOperations ≥ 2`). -/
def jsCeilDiv (n d : Nat) : Nat := (n + d - 1) / d

/-- JavaScript `Math.round(ms / 1000)` for non-negative `ms`
(round half away from zero, which for `ms ≥ 0` is floor of `ms/1000 + 1/2`). -/
def jsRoundDiv1000 (ms : Int) : Int := (ms + 500) / 1000

/-- Outcome of one `server.submitTransaction` call as seen by the JS catch
blocks: success, or a failure carrying
`error.response?.data?.extras?.result_codes?.transaction`
(`none` models a transport error with no structured result code). -/
inductive SubmitOutcome where
  | success
  | failure (code : Option String)
deriving DecidableEq

/-- A network that rejects every submission with the structured code
`tx_insufficient_balance` (insufficient balance). -/
def insufficientNet : Nat → SubmitOutcome :=
  fun _ => SubmitOutcome.failure (some "tx_insufficient_balance")

/-- A Stellar SDK operation as constructed by the handlers: the three
`StellarSdk.Operation` constructors the sources use, with the string fields
they pass. -/
inductive Op where
  | claimClaimableBalance (balanceId source : String)
  | payment (destination amount source : String)
  | revokeSponsorship (claimableBalance : String)
deriving DecidableEq

/-- Default operation used with `List.getD`. -/
def opDefault : Op := Op.revokeSponsorship ""

/-- A caller-visible HTTP response of the fail-fast variants: status code,
the machine-readable `code` field of the JSON body, and the number of
seconds reported in a TOO_EARLY message (absent otherwise). -/
structure GateResponse where
  statusCode : Nat
  code : Option String
  secondsReported : Option Int
deriving DecidableEq

/-- What a handler has done by the time it returns, for the method-gate
claims: the status code of the response, whether `JSON.parse(event.body)`
was executed, whether a keypair was derived from a mnemonic, and how many
network calls were made. -/
structure GateEffects where
  statusCode : Nat
  bodyParsed : Bool
  keypairDerived : Bool
  networkCalls : Nat
deriving DecidableEq

/-- The 405 early return shared verbatim by the handlers that check
`event.httpMethod`: the response is produced before the body is parsed,
before any keypair derivation and before any network call. -/
def methodNotAllowed : GateEffects := ⟨405, false, false, 0⟩

/-- The clock synchronizer of submitTransaction.js lines 32-41.
`transport` is the outcome of the axios HEAD request: `none` models a thrown
transport error (timeout, connection failure), `some none` a response with
no Date header, and `some (some t)` a response whose Date header denotes the
epoch-milliseconds instant `t`.  `localNow` is the local process clock
(`new Date()`).  The function always returns an instant: the remote one when
the header is present, the local clock otherwise.  Its return value is a
bare instant; the degraded-accuracy warning of the catch block goes to
`console.warn` only and is not part of the value returned to the caller. -/
def getPiServerTime (transport : Option (Option Nat)) (localNow : Nat) : Nat :=
  match transport with
  | some (some t) => t
  | some none => localNow
  | none => localNow

namespace ClockSync

/-- The race-start tolerance of unnamed/part_002 (`const raceStartWindowMs = 3000`). -/
def raceStartWindowMs : Int := 3000

/-- The waiting gate of unnamed/part_002 lines 73-78: when `msUntilUnlock`
exceeds `raceStartWindowMs` the handler awaits a timeout of
`msUntilUnlock - raceStartWindowMs` milliseconds (`some wait`); otherwise it
falls through to the race with no suspension (`none`). -/
def preRaceWait (msUntilUnlock : Int) : Option Int :=
  if msUntilUnlock > raceStartWindowMs then some (msUntilUnlock - raceStartWindowMs)
  else none

/-- One iteration of the part_002 race loop, recording which
`server.loadAccount` network call supplied the account snapshot used to build
that iteration's transaction. -/
structure RaceAttempt where
  fetchIndex : Nat
deriving DecidableEq

/-- The part_002 race loop (lines 89-128): each iteration performs a fresh
`loadAccount` (fetch index advances with the iteration), builds and submits;
on success the handler returns at once, on any error it continues.  The first
argument gives the network outcome of each successive submission, the `Nat`
bound abstracts the wall-clock `RACE_DURATION_MS` bound as a number of
iterations, and the last argument is the index of the next network fetch. -/
def race (net : Nat → SubmitOutcome) : Nat → Nat → List RaceAttempt
  | 0, _ => []
  | rem + 1, k =>
    match net k with
    | .success => [⟨k⟩]
    | .failure _ => ⟨k⟩ :: race net rem (k + 1)

/-- The operation-building loop of unnamed/part_002 lines 106-109: for each
of the `recordsPerAttempt` iterations, a `claimClaimableBalance` operation
followed by a `payment` operation is appended to the transaction builder. -/
def buildOps (claimableId senderPk receiver amount : String) : Nat → List Op
  | 0 => []
  | r + 1 =>
    Op.claimClaimableBalance claimableId senderPk
      :: Op.payment receiver amount senderPk
      :: buildOps claimableId senderPk receiver amount r

/-- The per-iteration fee computation of unnamed/part_002 lines 93-100:
with `feeMechanism = CUSTOM` and a custom fee present, the per-operation fee
is `Math.ceil(customFee / totalOperations)` with
`totalOperations = recordsPerAttempt * 2`; otherwise the network base fee,
multiplied by 10 under SPEED_HIGH. -/
def feePerOperation (feeMechanism : String) (customFee : Option Nat)
    (recordsPerAttempt baseFee : Nat) : Nat :=
  if feeMechanism = "CUSTOM" ∧ customFee.isSome = true then
    jsCeilDiv (customFee.getD 0) (recordsPerAttempt * 2)
  else if feeMechanism = "SPEED_HIGH" then baseFee * 10
  else baseFee

end ClockSync

namespace FeeBump

/-- The fee increment of submitTransaction.js line 85
(`const feeIncrement = 10000`). -/
def feeIncrement : Nat := 10000

/-- One iteration of the auto fee-bumping race of submitTransaction.js
lines 92-120.  `fetchIndex` records which `server.loadAccount` network call
supplied the account snapshot the transaction was built from (the handler
performs exactly one such call, before the loop, at index 0); `totalFee` is
the value of `currentFee` during the iteration; `feePerOp` is the
`Math.ceil(currentFee / totalOperations)` value passed to the
`TransactionBuilder`. -/
structure BumpAttempt where
  fetchIndex : Nat
  totalFee : Nat
  feePerOp : Nat
deriving DecidableEq

/-- Default attempt used with `List.getD`. -/
def bumpDefault : BumpAttempt := ⟨0, 0, 0⟩

/-- The auto fee-bumping race loop of submitTransaction.js lines 92-120.
The account is loaded ONCE before the loop (network fetch 0) and that
snapshot is reused by every iteration; submissions are fire-and-forget (no
success exit), so the loop always runs its full duration, abstracted here as
an iteration count.  `totalOperations` is `recordsPerAttempt * 2` (line 83)
and the second `Nat` argument is `currentFee`, which starts at the caller's
`customFee` (line 84) and is incremented by `feeIncrement` after every
attempt (line 118), even when the attempt body threw. -/
def race (totalOperations : Nat) : Nat → Nat → List BumpAttempt
  | 0, _ => []
  | rem + 1, currentFee =>
    ⟨0, currentFee, jsCeilDiv currentFee totalOperations⟩
      :: race totalOperations rem (currentFee + feeIncrement)

/-- The method gate of submitTransaction.js lines 45-47: a non-POST request
is answered with a 405 before the body is parsed; `post` is what the rest of
the handler would do on a POST request. -/
def handlerGate (method : String) (post : GateEffects) : GateEffects :=
  if method = "POST" then post else methodNotAllowed

end FeeBump

namespace Balances

/-- The method gate of the getClaimableBalances handler (unnamed/part_000
line 21): a non-POST request is answered with a 405 before the body is
parsed; `post` is what the rest of the handler would do on a POST request. -/
def handler (method : String) (post : GateEffects) : GateEffects :=
  if method = "POST" then post else methodNotAllowed

end Balances

namespace Predictive

/-- Terminal result of the part_001 race loop: a 200 response on an accepted
submission, or the post-loop `throw` (mapped to a 500 response) carrying the
last stored error, with the number of attempts made. -/
inductive LoopResult where
  | succeeded (attempts : Nat)
  | failed (attempts : Nat) (lastErr : Option (Option String))
deriving DecidableEq

/-- The duration-bounded race loop of unnamed/part_001 lines 63-100.  The
wall-clock `RACE_DURATION_MS` bound is abstracted as an iteration count
(first `Nat`); the second `Nat` counts attempts made and the last argument is
the stored `lastError`.  On any error the catch block merely logs (the
logging differs for `tx_bad_seq`/`tx_too_early` versus other codes) and the
loop continues; only a successful submission exits early. -/
def run (net : Nat → SubmitOutcome) : Nat → Nat → Option (Option String) → LoopResult
  | 0, k, last => .failed k last
  | rem + 1, k, _last =>
    match net k with
    | .success => .succeeded (k + 1)
    | .failure code => run net rem (k + 1) (some code)

end Predictive

namespace Sponsorship

/-- The claim+transfer loop of unnamed/part_003 lines 71-83 (first file):
`recordsPerAttempt` consecutive pairs of a claim followed by a payment. -/
def pairOps (claimableId senderPk receiver amount : String) : Nat → List Op
  | 0 => []
  | r + 1 =>
    Op.claimClaimableBalance claimableId senderPk
      :: Op.payment receiver amount senderPk
      :: pairOps claimableId senderPk receiver amount r

/-- The full operation list of unnamed/part_003 lines 63-83 (first file):
when `removeSponsorship` is truthy a `revokeSponsorship` operation is added
before the claim/transfer pairs. -/
def buildOps (removeSponsorship : Bool) (claimableId senderPk receiver amount : String)
    (recordsPerAttempt : Nat) : List Op :=
  (if removeSponsorship then [Op.revokeSponsorship claimableId] else []) ++
    pairOps claimableId senderPk receiver amount recordsPerAttempt

/-- Request fields of the unnamed/part_003 (first file) handler that its fee
logic and operation building read.  `recordsPerAttempt` is the value after
the `parseInt`-and-clamp of lines 39-40, hence at least 1; `customFee` is
`none` when the field is absent (falsy). -/
structure Params where
  feeMechanism : String
  customFee : Option Nat
  removeSponsorship : Bool
  recordsPerAttempt : Nat
deriving DecidableEq

/-- A JavaScript runtime error thrown by the handler body. -/
inductive JsError where
  | constAssignment
deriving DecidableEq

/-- The fee logic of unnamed/part_003 (first file) lines 43-55.  With
`feeMechanism = CUSTOM` and a custom fee present, the source declares
`const totalOperations = 2 * recordsPerAttempt` and then, when
`removeSponsorship` is set, executes `totalOperations += 1`; by JavaScript
semantics an assignment to a `const` binding throws a TypeError, modelled
here as `Except.error JsError.constAssignment` — the line never completes,
so the intended `+ 1` divisor adjustment is never applied.  Without
`removeSponsorship` the per-operation fee is
`Math.ceil(customFee / (2 * recordsPerAttempt))`; without the CUSTOM
mechanism it is the network base fee, multiplied by 10 under SPEED_HIGH. -/
def computeFee (p : Params) (baseFee : Nat) : Except JsError Nat :=
  if p.feeMechanism = "CUSTOM" ∧ p.customFee.isSome = true then
    if p.removeSponsorship then Except.error JsError.constAssignment
    else Except.ok (jsCeilDiv (p.customFee.getD 0) (2 * p.recordsPerAttempt))
  else if p.feeMechanism = "SPEED_HIGH" then Except.ok (baseFee * 10)
  else Except.ok baseFee

/-- Caller-visible outcome of the unnamed/part_003 (first file) handler:
the HTTP status code and whether `server.submitTransaction` was reached. -/
structure HandlerOutcome where
  statusCode : Nat
  submitted : Bool
deriving DecidableEq

/-- The unnamed/part_003 (first file) handler after keypair derivation and
`loadAccount` have succeeded: the fee logic runs; a thrown error is caught
by the catch block of lines 96-114, which returns a 500 response, and in
that case no transaction is built, signed or submitted.  When the fee logic
completes, the transaction is built and submitted once; a 200 response on
acceptance, a 500 response on a submission error (same catch block). -/
def handler (p : Params) (baseFee : Nat) (net : SubmitOutcome) : HandlerOutcome :=
  match computeFee p baseFee with
  | .error _ => ⟨500, false⟩
  | .ok _ =>
    match net with
    | .success => ⟨200, true⟩
    | .failure _ => ⟨500, true⟩

end Sponsorship

namespace Diagnostic

/-- The diagnostic handler of unnamed/part_005: it performs NO
`event.httpMethod` check.  Whatever the method, it attempts to require the
stellar-sdk module, writes its structure to the console, and returns a 500
response (the catch path also returns 500); it never parses the body, never
derives a keypair and makes no network call. -/
def handler (_method : String) : GateEffects := ⟨500, false, false, 0⟩

end Diagnostic

namespace ClaimOnly

/-- The operation-building loop of unnamed/part_006 lines 76-81: the claim
and transfer are NOT paired in this variant — `numOperations =
recordsPerAttempt` iterations each append a single `claimClaimableBalance`
operation and no payment operation at all. -/
def buildOps (claimableId senderPk : String) : Nat → List Op
  | 0 => []
  | n + 1 =>
    Op.claimClaimableBalance claimableId senderPk :: buildOps claimableId senderPk n

end ClaimOnly

namespace FailFast

/-- The tolerance of the fail-fast gate (`msUntilUnlock > 7000` in
unnamed/part_007 line 62 and submitTransaction.js line 65). -/
def toleranceMs : Int := 7000

/-- The race loop of unnamed/part_007 lines 85-126 together with its
post-loop defeat response (lines 136-139).  The wall-clock bound is
abstracted as an iteration count; the second `Nat` counts the transactions
assembled, signed and submitted so far, and is returned alongside the
response.  A submission accepted by Horizon returns a 200 immediately; any
error merely logs and the loop continues; after the loop a 400 RACE_LOST
response is returned. -/
def race (net : Nat → SubmitOutcome) : Nat → Nat → GateResponse × Nat
  | 0, subs => (⟨400, some "RACE_LOST", none⟩, subs)
  | rem + 1, subs =>
    match net subs with
    | .success => (⟨200, none, none⟩, subs + 1)
    | .failure _ => race net rem (subs + 1)

/-- The fail-fast handler of unnamed/part_007 lines 58-139 (the identical
gate also appears in submitTransaction.js lines 61-68), after the request
has passed the method and required-field checks: if `msUntilUnlock` exceeds
the 7000 ms tolerance it returns a 400 TOO_EARLY response whose message
reports `Math.round(msUntilUnlock / 1000)` seconds, with zero transactions
assembled, signed or submitted; otherwise it proceeds into the race loop. -/
def handler (msUntilUnlock : Int) (net : Nat → SubmitOutcome) (iters : Nat) :
    GateResponse × Nat :=
  if msUntilUnlock > toleranceMs then
    (⟨400, some "TOO_EARLY", some (jsRoundDiv1000 msUntilUnlock)⟩, 0)
  else race net iters 0

end FailFast

namespace Persistent

/-- Terminal result of the part_008 retry loop: a 200 response with the
transaction hash, a 400 response produced by the non-retriable branch of the
catch block, or the fall-through 400 after `MAX_ATTEMPTS` failed attempts.
Each carries the number of submission attempts made. -/
inductive LoopResult where
  | succeeded (attempts : Nat)
  | fatal (attempts : Nat) (code : Option String)
  | exhausted (attempts : Nat)
deriving DecidableEq

/-- The error classification of unnamed/part_008 lines 94-104: only
`tx_bad_seq` and `tx_too_early` branches fall through to the next attempt. -/
def retriable (code : Option String) : Bool :=
  code = some "tx_bad_seq" || code = some "tx_too_early"

/-- The persistent retry loop of unnamed/part_008 lines 56-108
(`MAX_ATTEMPTS = 20`).  `net` gives the outcome of each successive
submission, the first `Nat` is the number of attempts remaining and the
second the number of attempts already made.  Success returns immediately
with a 200; a rejection whose code is neither `tx_bad_seq` nor
`tx_too_early` returns immediately with a 400 (`fatal`); the retriable codes
continue to the next attempt. -/
def run (net : Nat → SubmitOutcome) : Nat → Nat → LoopResult
  | 0, k => .exhausted k
  | rem + 1, k =>
    match net k with
    | .success => .succeeded (k + 1)
    | .failure code =>
      if retriable code then run net rem (k + 1)
      else .fatal (k + 1) code

/-- The attempt bound of unnamed/part_008 line 19 (`const MAX_ATTEMPTS = 20`). -/
def maxAttempts : Nat := 20

/-- The method gate of unnamed/part_008 lines 33-35: a non-POST request is
answered with a 405 before the body is parsed; `post` is what the rest of
the handler would do on a POST request. -/
def handlerGate (method : String) (post : GateEffects) : GateEffects :=
  if method = "POST" then post else methodNotAllowed

end Persistent

theorem clockSync_race_fetchIndex (net : Nat → SubmitOutcome) :
    ∀ (n k i : Nat), i < (ClockSync.race net n k).length →
      ((ClockSync.race net n k).getD i ⟨0⟩).fetchIndex = k + i := by
  intro n
  induction n with
  | zero => intro k i h; simp [ClockSync.race] at h
  | succ m ih =>
    intro k i h
    cases hnet : net k with
    | success =>
      simp only [ClockSync.race, hnet, List.length_cons, List.length_nil] at h
      have hi : i = 0 := by omega
      subst hi
      simp [ClockSync.race, hnet]
    | failure code =>
      cases i with
      | zero => simp [ClockSync.race, hnet]
      | succ j =>
        simp only [ClockSync.race, hnet, List.length_cons, Nat.succ_lt_succ_iff] at h
        have hrec := ih (k + 1) j h
        simp only [ClockSync.race, hnet, List.getD_cons_succ]
        omega

theorem feeBump_race_getD (tot : Nat) :
    ∀ (n base k : Nat), k < n →
      (FeeBump.race tot n base).getD k FeeBump.bumpDefault =
        ⟨0, base + FeeBump.feeIncrement * k,
          jsCeilDiv (base + FeeBump.feeIncrement * k) tot⟩ := by
  intro n
  induction n with
  | zero => intro base k h; omega
  | succ m ih =>
    intro base k h
    cases k with
    | zero => simp [FeeBump.race]
    | succ j =>
      have hj : j < m := by omega
      have hrec := ih (base + FeeBump.feeIncrement) j hj
      simp only [FeeBump.race, List.getD_cons_succ, hrec]
      have harith : base + FeeBump.feeIncrement + FeeBump.feeIncrement * j
          = base + FeeBump.feeIncrement * (j + 1) := by ring
      rw [harith]

theorem jsCeilDiv_le_jsCeilDiv {a b : Nat} (d : Nat) (h : a ≤ b) :
    jsCeilDiv a d ≤ jsCeilDiv b d :=
  Nat.div_le_div_right (by omega)

theorem clockSync_buildOps_length (c s recv amt : String) :
    ∀ r, (ClockSync.buildOps c s recv amt r).length = 2 * r := by
  intro r
  induction r with
  | zero => rfl
  | succ m ih =>
    simp only [ClockSync.buildOps, List.length_cons, ih]
    omega

theorem clockSync_buildOps_pair (c s recv amt : String) :
    ∀ (r k : Nat), k < r →
      (ClockSync.buildOps c s recv amt r).getD (2 * k) opDefault =
        Op.claimClaimableBalance c s ∧
      (ClockSync.buildOps c s recv amt r).getD (2 * k + 1) opDefault =
        Op.payment recv amt s := by
  intro r
  induction r with
  | zero => intro k h; omega
  | succ m ih =>
    intro k h
    cases k with
    | zero => exact ⟨rfl, rfl⟩
    | succ j =>
      have hj : j < m := by omega
      have hrec := ih j hj
      constructor
      · have e : 2 * (j + 1) = 2 * j + 1 + 1 := by ring
        rw [e]
        simp only [ClockSync.buildOps, List.getD_cons_succ]
        exact hrec.1
      · have e : 2 * (j + 1) + 1 = 2 * j + 1 + 1 + 1 := by ring
        rw [e]
        simp only [ClockSync.buildOps, List.getD_cons_succ]
        exact hrec.2

theorem claimOnly_buildOps_length (c s : String) :
    ∀ n, (ClaimOnly.buildOps c s n).length = n := by
  intro n
  induction n with
  | zero => rfl
  | succ m ih => simp only [ClaimOnly.buildOps, List.length_cons, ih]

theorem claimOnly_buildOps_mem (c s : String) :
    ∀ (n : Nat), ∀ op ∈ ClaimOnly.buildOps c s n,
      op = Op.claimClaimableBalance c s := by
  intro n
  induction n with
  | zero => intro op h; simp [ClaimOnly.buildOps] at h
  | succ m ih =>
    intro op h
    simp only [ClaimOnly.buildOps, List.mem_cons] at h
    cases h with
    | inl h => exact h
    | inr h => exact ih op h

theorem sponsorship_pairOps_length (c s recv amt : String) :
    ∀ r, (Sponsorship.pairOps c s recv amt r).length = 2 * r := by
  intro r
  induction r with
  | zero => rfl
  | succ m ih =>
    simp only [Sponsorship.pairOps, List.length_cons, ih]
    omega

/-- Counterexample to claim C1: in the race loop of unnamed/part_001 (cited
by the claim), a run of three iterations against a ledger that rejects every
submission with the structured code `tx_insufficient_balance` makes all
three attempts — after the first non-retriable structured rejection the loop
continues instead of terminating, so further attempts ARE made (three
attempts, not one). -/
theorem C1_counterexample :
    Predictive.run insufficientNet 3 0 none =
      Predictive.LoopResult.failed 3 (some (some "tx_insufficient_balance")) ∧
    ¬ Predictive.run insufficientNet 3 0 none =
      Predictive.LoopResult.failed 1 (some (some "tx_insufficient_balance")) := by
  constructor <;> decide

/-- Claim C1, amended: the two cited loops behave differently.  In the
attempt-bounded retry loop of unnamed/part_008, a submission rejected with a
structured code other than `tx_bad_seq`/`tx_too_early` terminates the loop
immediately with a fatal response after that single attempt, while a
rejection with a retriable code continues to the next attempt.  In the
duration-bounded race loop of unnamed/part_001, every failed submission —
whatever its code — lets the loop continue to the next attempt (only the log
message differs). -/
theorem C1_classification_amended (net : Nat → SubmitOutcome) (c : String)
    (hc : Persistent.retriable (some c) = false)
    (h0 : net 0 = SubmitOutcome.failure (some c)) :
    Persistent.run net Persistent.maxAttempts 0 = .fatal 1 (some c) ∧
    (∀ (net2 : Nat → SubmitOutcome) (rem k : Nat) (code : Option String),
      Persistent.retriable code = true → net2 k = SubmitOutcome.failure code →
        Persistent.run net2 (rem + 1) k = Persistent.run net2 rem (k + 1)) ∧
    (∀ (net3 : Nat → SubmitOutcome) (rem k : Nat) (code : Option String)
        (last : Option (Option String)), net3 k = SubmitOutcome.failure code →
        Predictive.run net3 (rem + 1) k last = Predictive.run net3 rem (k + 1) (some code)) := by
  refine ⟨?_, ?_, ?_⟩
  · simp [Persistent.run, Persistent.maxAttempts, h0, hc]
  · intro net2 rem k code hcode hnet
    simp [Persistent.run, hnet, hcode]
  · intro net3 rem k code last hnet
    simp [Predictive.run, hnet]

/-- Witness for C1 (amended): against the always-insufficient-balance
ledger, the part_008 loop aborts fatally after exactly one attempt. -/
theorem C1_classification_witness :
    Persistent.run insufficientNet Persistent.maxAttempts 0 =
      Persistent.LoopResult.fatal 1 (some "tx_insufficient_balance") :=
  (C1_classification_amended insufficientNet "tx_insufficient_balance"
    (by decide) rfl).1

/-- Counterexample to claim C2: in the auto fee-bumping variant
(submitTransaction.js lines 81-82, account details fetched ONCE before the
race), a two-iteration race makes two attempts and both build their
transaction from the same account snapshot, namely the single pre-race
`loadAccount` network call (fetch index 0); the account state is not
re-fetched before the second attempt, so a snapshot IS reused across two
attempts of the same race. -/
theorem C2_counterexample :
    (FeeBump.race 2 2 100).length = 2 ∧
    ((FeeBump.race 2 2 100).getD 0 FeeBump.bumpDefault).fetchIndex =
      ((FeeBump.race 2 2 100).getD 1 FeeBump.bumpDefault).fetchIndex := by
  constructor <;> rfl

/-- Claim C2, amended: in the clock-sync race variant (unnamed/part_002
line 91) every iteration re-fetches the fee-source account immediately before
assembling its transaction — attempt `i` of a race whose first fetch has
index `k` uses the fresh fetch `k + i`, so no snapshot is shared between two
attempts; but in the auto fee-bumping variant (submitTransaction.js) the
account snapshot from the single pre-race fetch (index 0) is reused by every
attempt. -/
theorem C2_account_refresh_amended (net : Nat → SubmitOutcome) (n k i : Nat)
    (hi : i < (ClockSync.race net n k).length) :
    ((ClockSync.race net n k).getD i ⟨0⟩).fetchIndex = k + i ∧
    ∀ (tot m base j : Nat), j < m →
      ((FeeBump.race tot m base).getD j FeeBump.bumpDefault).fetchIndex = 0 := by
  refine ⟨clockSync_race_fetchIndex net n k i hi, ?_⟩
  intro tot m base j hj
  rw [feeBump_race_getD tot m base j hj]

/-- Witness for C2 (amended): a concrete clock-sync race in which the first
two submissions fail with a stale-sequence code; its second attempt uses
fetch index 1, a fetch distinct from attempt 0, while the fee-bumping race
reuses fetch 0. -/
theorem C2_account_refresh_witness :
    ((ClockSync.race (fun _ => SubmitOutcome.failure (some "tx_bad_seq")) 2 0).getD 1 ⟨0⟩).fetchIndex
        = 0 + 1 ∧
    ∀ (tot m base j : Nat), j < m →
      ((FeeBump.race tot m base).getD j FeeBump.bumpDefault).fetchIndex = 0 :=
  C2_account_refresh_amended (fun _ => SubmitOutcome.failure (some "tx_bad_seq")) 2 0 1
    (by decide)

/-- Claim C3 (code bug): the per-operation fee under the CUSTOM mechanism.
The `ceil(customFee / (2 * recordsPerAttempt))` part holds (shown here both
for the race variant of unnamed/part_002 and for the part_003 variant with
`removeSponsorship` unset), but the claimed divisor adjustment for a
sponsorship-revocation operation never happens on any execution: at the
failing input (`feeMechanism = CUSTOM`, `customFee = 1000000`,
`removeSponsorship = true`, `recordsPerAttempt = 1`) the intended fee would
be `ceil(1000000 / 3) = 333334`, yet the source reassigns the `const`
binding `totalOperations`, which throws, so the handler returns a 500
response without building or submitting anything. -/
theorem C3_custom_total_fee_bug :
    ClockSync.feePerOperation "CUSTOM" (some 1000000) 1 100 = jsCeilDiv 1000000 2 ∧
    Sponsorship.computeFee ⟨"CUSTOM", some 1000000, false, 1⟩ 100 =
      Except.ok (jsCeilDiv 1000000 (2 * 1)) ∧
    jsCeilDiv 1000000 (2 * 1 + 1) = 333334 ∧
    Sponsorship.computeFee ⟨"CUSTOM", some 1000000, true, 1⟩ 100 =
      Except.error Sponsorship.JsError.constAssignment ∧
    Sponsorship.handler ⟨"CUSTOM", some 1000000, true, 1⟩ 100 SubmitOutcome.success =
      ⟨500, false⟩ := by
  refine ⟨rfl, rfl, by decide, rfl, rfl⟩

/-- Claim C4: under the CUSTOM_BUMPED mechanism of submitTransaction.js, the
total custom fee of attempt `i` is the caller's base value plus `10000 * i`
(the fixed increment is applied after every attempt), and consequently the
per-operation fee of a later attempt is at least that of any earlier attempt
of the same race. -/
theorem C4_bumped_fee_monotone (tot n base i j : Nat)
    (hij : i ≤ j) (hj : j < n) :
    ((FeeBump.race tot n base).getD i FeeBump.bumpDefault).totalFee
        = base + 10000 * i ∧
    ((FeeBump.race tot n base).getD i FeeBump.bumpDefault).feePerOp ≤
      ((FeeBump.race tot n base).getD j FeeBump.bumpDefault).feePerOp := by
  have hi : i < n := by omega
  rw [feeBump_race_getD tot n base i hi, feeBump_race_getD tot n base j hj]
  refine ⟨rfl, jsCeilDiv_le_jsCeilDiv tot ?_⟩
  have : FeeBump.feeIncrement * i ≤ FeeBump.feeIncrement * j :=
    Nat.mul_le_mul_left _ hij
  omega

/-- Witness for C4: a three-attempt race with base fee 1000000 and 2
operations per transaction; attempt 0 carries total fee 1000000 and its
per-operation fee is below that of attempt 2. -/
theorem C4_bumped_fee_monotone_witness :
    ((FeeBump.race 2 3 1000000).getD 0 FeeBump.bumpDefault).totalFee
        = 1000000 + 10000 * 0 ∧
    ((FeeBump.race 2 3 1000000).getD 0 FeeBump.bumpDefault).feePerOp ≤
      ((FeeBump.race 2 3 1000000).getD 2 FeeBump.bumpDefault).feePerOp :=
  C4_bumped_fee_monotone 2 3 1000000 0 2 (by decide) (by decide)

/-- Counterexample to claim C5: the claim-only variant (unnamed/part_006,
cited by the claim) with `recordsPerAttempt = 2` assembles a transaction of
2 operations, not `2 × 2 = 4`, and both are claim operations — there is no
payment operation, hence no claim/transfer pairing. -/
theorem C5_counterexample :
    (ClaimOnly.buildOps "cb" "sender" 2).length = 2 ∧
    ¬ (ClaimOnly.buildOps "cb" "sender" 2).length = 2 * 2 ∧
    ClaimOnly.buildOps "cb" "sender" 2 =
      [Op.claimClaimableBalance "cb" "sender",
       Op.claimClaimableBalance "cb" "sender"] := by
  refine ⟨rfl, by decide, rfl⟩

/-- Claim C5, amended: in the claim+transfer variants the assembled
transaction does contain exactly `2 × recordsPerAttempt` operations arranged
as consecutive claim-then-payment pairs (unnamed/part_002, and
unnamed/part_003 without sponsorship removal); in unnamed/part_003 with
`removeSponsorship` set, one `revokeSponsorship` operation is prepended,
giving `2 × recordsPerAttempt + 1` operations; and in the claim-only variant
(unnamed/part_006) the transaction contains exactly `recordsPerAttempt`
operations, all of them claims, with no payment operations. -/
theorem C5_operations_amended (c s recv amt : String) (r k : Nat) (hk : k < r) :
    (ClockSync.buildOps c s recv amt r).length = 2 * r ∧
    (ClockSync.buildOps c s recv amt r).getD (2 * k) opDefault =
      Op.claimClaimableBalance c s ∧
    (ClockSync.buildOps c s recv amt r).getD (2 * k + 1) opDefault =
      Op.payment recv amt s ∧
    (ClaimOnly.buildOps c s r).length = r ∧
    (∀ op ∈ ClaimOnly.buildOps c s r, op = Op.claimClaimableBalance c s) ∧
    (Sponsorship.buildOps false c s recv amt r).length = 2 * r ∧
    (Sponsorship.buildOps true c s recv amt r).length = 2 * r + 1 ∧
    (Sponsorship.buildOps true c s recv amt r).getD 0 opDefault =
      Op.revokeSponsorship c := by
  obtain ⟨h1, h2⟩ := clockSync_buildOps_pair c s recv amt r k hk
  refine ⟨clockSync_buildOps_length c s recv amt r, h1, h2,
    claimOnly_buildOps_length c s r, claimOnly_buildOps_mem c s r, ?_, ?_, rfl⟩
  · simp [Sponsorship.buildOps, sponsorship_pairOps_length]
  · simp only [Sponsorship.buildOps, if_pos, List.singleton_append,
      List.length_cons, sponsorship_pairOps_length]

/-- Witness for C5 (amended): concrete instantiation with
`recordsPerAttempt = 1` and the first pair index. -/
theorem C5_operations_witness :
    (ClockSync.buildOps "cb" "S" "R" "1" 1).length = 2 * 1 ∧
    (ClockSync.buildOps "cb" "S" "R" "1" 1).getD (2 * 0) opDefault =
      Op.claimClaimableBalance "cb" "S" ∧
    (ClockSync.buildOps "cb" "S" "R" "1" 1).getD (2 * 0 + 1) opDefault =
      Op.payment "R" "1" "S" ∧
    (ClaimOnly.buildOps "cb" "S" 1).length = 1 ∧
    (∀ op ∈ ClaimOnly.buildOps "cb" "S" 1,
      op = Op.claimClaimableBalance "cb" "S") ∧
    (Sponsorship.buildOps false "cb" "S" "R" "1" 1).length = 2 * 1 ∧
    (Sponsorship.buildOps true "cb" "S" "R" "1" 1).length = 2 * 1 + 1 ∧
    (Sponsorship.buildOps true "cb" "S" "R" "1" 1).getD 0 opDefault =
      Op.revokeSponsorship "cb" :=
  C5_operations_amended "cb" "S" "R" "1" 1 0 (by decide)

/-- Claim C6: in the waiting-gate variant (unnamed/part_002), if
`msUntilUnlock` exceeds the 3000 ms race-start window the engine suspends for
exactly `msUntilUnlock - 3000` milliseconds before entering the racing loop,
and if `msUntilUnlock ≤ 3000` (including non-positive values) the racing loop
begins immediately with no suspension. -/
theorem C6_waiting_gate (ms : Int) :
    (ClockSync.raceStartWindowMs < ms →
      ClockSync.preRaceWait ms = some (ms - ClockSync.raceStartWindowMs)) ∧
    (ms ≤ ClockSync.raceStartWindowMs → ClockSync.preRaceWait ms = none) := by
  constructor
  · intro h
    simp [ClockSync.preRaceWait, h]
  · intro h
    simp [ClockSync.preRaceWait, ClockSync.raceStartWindowMs] at h ⊢
    omega

/-- Witness for C6: with the unlock 10 s away the engine suspends exactly
7000 ms (the worked example of the spec), and with the unlock already past
(negative gap) there is no suspension. -/
theorem C6_waiting_gate_witness :
    ClockSync.preRaceWait 10000 = some 7000 ∧ ClockSync.preRaceWait (-500) = none :=
  ⟨(C6_waiting_gate 10000).1 (by decide), (C6_waiting_gate (-500)).2 (by decide)⟩

/-- Claim C7: in the fail-fast gate variant, whenever the time remaining
until the target unlock instant exceeds the 7000 ms tolerance, the handler
returns a 400 response with code TOO_EARLY reporting
`Math.round(msUntilUnlock / 1000)` seconds remaining, and no transaction is
assembled, signed or submitted to the ledger network (submission count 0). -/
theorem C7_too_early_fail_fast (ms : Int) (net : Nat → SubmitOutcome)
    (iters : Nat) (h : FailFast.toleranceMs < ms) :
    FailFast.handler ms net iters =
      (⟨400, some "TOO_EARLY", some (jsRoundDiv1000 ms)⟩, 0) := by
  simp [FailFast.handler, h]

/-- Witness for C7: with the unlock 10550 ms away the handler reports
11 seconds (round of 10.55) and submits nothing, whatever the network would
have answered. -/
theorem C7_too_early_fail_fast_witness :
    FailFast.handler 10550 insufficientNet 5 =
      (⟨400, some "TOO_EARLY", some 11⟩, 0) :=
  C7_too_early_fail_fast 10550 insufficientNet 5 (by decide)

/-- Counterexample to claim C8: the caller-visible result of
`getPiServerTime` carries no degraded-accuracy flag.  A failed transport
with local clock 42 and a successful transport whose Date header reads 42
produce identical results (both the bare instant 42), so the caller cannot
tell that the fallback was used — the claimed flag does not exist. -/
theorem C8_counterexample :
    getPiServerTime none 42 = getPiServerTime (some (some 42)) 7 ∧
    getPiServerTime none 42 = 42 := by
  constructor <;> rfl

/-- Claim C8, amended: the clock synchronizer never fails the caller — it is
a total function that, on a thrown transport error or a response with no
Date header, returns the local process clock, and otherwise returns the
remote Date header instant; the degraded-accuracy warning is only written to
the console log and no flag is surfaced to the caller. -/
theorem C8_clock_fallback_amended (localNow t : Nat) :
    getPiServerTime none localNow = localNow ∧
    getPiServerTime (some none) localNow = localNow ∧
    getPiServerTime (some (some t)) localNow = t := by
  refine ⟨rfl, rfl, rfl⟩

/-- Claim C9: for every request with `removeSponsorship` truthy under the
CUSTOM fee mechanism with a custom fee present, the fee logic of
unnamed/part_003 reassigns the `const` binding `totalOperations` and throws
before any transaction is built, so the handler submits nothing and returns
a 500 response — and on every execution on which the fee logic does
complete, the removeSponsorship branch was not taken, so the +1-operation
fee adjustment is never actually applied. -/
theorem C9_const_reassignment (p : Sponsorship.Params) (baseFee : Nat)
    (net : SubmitOutcome)
    (h1 : p.removeSponsorship = true)
    (h2 : p.feeMechanism = "CUSTOM")
    (h3 : p.customFee.isSome = true) :
    Sponsorship.handler p baseFee net = ⟨500, false⟩ ∧
    Sponsorship.computeFee p baseFee =
      Except.error Sponsorship.JsError.constAssignment ∧
    ∀ (q : Sponsorship.Params) (bf f : Nat),
      Sponsorship.computeFee q bf = Except.ok f →
        ¬(q.removeSponsorship = true ∧ q.feeMechanism = "CUSTOM" ∧
          q.customFee.isSome = true) := by
  refine ⟨?_, ?_, ?_⟩
  · simp [Sponsorship.handler, Sponsorship.computeFee, h1, h2, h3]
  · simp [Sponsorship.computeFee, h1, h2, h3]
  · intro q bf f hok hq
    obtain ⟨hq1, hq2, hq3⟩ := hq
    simp [Sponsorship.computeFee, hq1, hq2, hq3] at hok

/-- Witness for C9: the concrete failing request
(`feeMechanism = CUSTOM`, `customFee = 1000000`, `removeSponsorship = true`,
`recordsPerAttempt = 1`) against a network that would have accepted the
transaction still yields a 500 response with nothing submitted. -/
theorem C9_const_reassignment_witness :
    Sponsorship.handler ⟨"CUSTOM", some 1000000, true, 1⟩ 100 SubmitOutcome.success = ⟨500, false⟩ :=
  (C9_const_reassignment ⟨"CUSTOM", some 1000000, true, 1⟩ 100 SubmitOutcome.success
    rfl rfl rfl).1

/-- Counterexample to claim C10: the diagnostic handler (unnamed/part_005)
performs no `httpMethod` check and returns a 500 response for every request,
so a GET request is NOT answered with a 405 — "every handler returns 405 for
non-POST" fails on this handler. -/
theorem C10_counterexample :
    (Diagnostic.handler "GET").statusCode = 500 ∧
    ¬ (Diagnostic.handler "GET").statusCode = 405 := by
  constructor <;> decide

/-- Claim C10, amended: every handler that checks `event.httpMethod`
(netlify/functions/submitTransaction.js, unnamed/part_000, unnamed/part_008,
and likewise the other variants with the same first lines) answers a
non-POST request with an immediate 405 response, before parsing the body,
deriving any keypair or making any network call; the diagnostic handler of
unnamed/part_005 performs no such check and returns a 500 response whatever
the method (it, too, parses no body, derives no keypair and makes no network
call). -/
theorem C10_method_gate_amended (method : String) (post : GateEffects)
    (h : ¬ method = "POST") :
    Balances.handler method post = methodNotAllowed ∧
    Persistent.handlerGate method post = methodNotAllowed ∧
    FeeBump.handlerGate method post = methodNotAllowed ∧
    Diagnostic.handler method = ⟨500, false, false, 0⟩ ∧
    methodNotAllowed = ⟨405, false, false, 0⟩ := by
  refine ⟨?_, ?_, ?_, rfl, rfl⟩
  · simp [Balances.handler, h]
  · simp [Persistent.handlerGate, h]
  · simp [FeeBump.handlerGate, h]

/-- Witness for C10 (amended): a GET request against each gate, where the
POST continuation would have parsed the body, derived a keypair and made
three network calls. -/
theorem C10_method_gate_witness :
    Balances.handler "GET" ⟨200, true, true, 3⟩ = methodNotAllowed ∧
    Persistent.handlerGate "GET" ⟨200, true, true, 3⟩ = methodNotAllowed ∧
    FeeBump.handlerGate "GET" ⟨200, true, true, 3⟩ = methodNotAllowed ∧
    Diagnostic.handler "GET" = ⟨500, false, false, 0⟩ ∧
    methodNotAllowed = ⟨405, false, false, 0⟩ :=
  C10_method_gate_amended "GET" ⟨200, true, true, 3⟩ (by decide)
